import Mathlib

/-!
Verification of `tools/enforce_docstrings.py`, the documentation-contract
enforcer of this repository. The Python functions are shallowly embedded as
executable Lean definitions over an explicit file-system value; file paths
are repository-relative strings, parsed Python files are structural records.

String primitives are re-implemented structurally over `List Char` (rather
than through `String`'s position-based loops) so that every definition
reduces in the kernel; each models the corresponding Python string method.
-/

namespace EnforceDocstrings

/-- Models Python `s.startswith(pre)`. -/
def pyStartsWith (s pre : String) : Bool :=
  pre.data.isPrefixOf s.data

/-- Models Python `s.endswith(suf)`. -/
def pyEndsWith (s suf : String) : Bool :=
  suf.data.isSuffixOf s.data

/-- Models Python `s.lower()` (the escape tokens and source lines compared
with them are ASCII, where `Char.toLower` agrees with `str.lower`). -/
def pyLower (s : String) : String :=
  ⟨s.data.map Char.toLower⟩

/-- Models Python `s.strip()`: drop whitespace from both ends. -/
def pyStrip (cs : List Char) : List Char :=
  ((cs.dropWhile Char.isWhitespace).reverse.dropWhile Char.isWhitespace).reverse

/-- Index of the first occurrence of `pat` in `hay` (`none` when absent):
models Python `hay.find(pat)` with `-1` mapped to `none`. -/
def subIdx (pat : List Char) : List Char → Option Nat
  | [] => if pat.isPrefixOf ([] : List Char) then some 0 else none
  | c :: t =>
    if pat.isPrefixOf (c :: t) then some 0
    else (subIdx pat t).map (· + 1)

/-- Models Python `hay.find(pat)` on strings (character indices). -/
def pyFind (hay pat : String) : Option Nat :=
  subIdx pat.data hay.data

/-- Splits a character list at a separator character (used for `str.split`
and for decomposing paths into parts). -/
def splitCharAux (sep : Char) : List Char → List Char → List (List Char)
  | [], cur => [cur.reverse]
  | c :: cs, cur =>
    if c = sep then cur.reverse :: splitCharAux sep cs []
    else splitCharAux sep cs (c :: cur)

/-- Joins path parts with `/` (how `pathlib` prints a relative path). -/
def joinWithSlash : List (List Char) → List Char
  | [] => []
  | [p] => p
  | p :: ps => p ++ '/' :: joinWithSlash ps

/-- Fuel-driven body of `pyReplace`; the fuel starts at the subject's length,
which bounds the number of steps since every step consumes at least one
character. -/
def pyReplaceAux (pat rep : List Char) : Nat → List Char → List Char
  | _, [] => []
  | 0, rest => rest
  | Nat.succ fuel, c :: cs =>
    if pat.isPrefixOf (c :: cs) then
      match pat with
      | [] => c :: pyReplaceAux pat rep fuel cs
      | _ :: ps => rep ++ pyReplaceAux pat rep fuel (cs.drop ps.length)
    else c :: pyReplaceAux pat rep fuel cs

/-- Models Python `s.replace(pat, rep)` for a non-empty `pat` (the one use
site replaces the fixed prefix `src/diffusion_core/`): replaces
non-overlapping occurrences left to right. -/
def pyReplace (s pat rep : String) : String :=
  ⟨pyReplaceAux pat.data rep.data s.data.length s.data⟩

/-!
The data model: the parts of a parsed Python file (`ast.Module`) that
`enforce_docstrings.py` inspects.
-/

/-- One element of an `__all__` list/tuple literal: a string constant, or
anything else (`extract_all_list` only distinguishes these two cases). -/
inductive AllElt where
  | strConst (s : String)
  | nonStr
deriving DecidableEq

/-- The right-hand side of an assignment, as far as `extract_all_list`
inspects it: an `ast.List`, an `ast.Tuple`, or any other expression. -/
inductive PyExpr where
  | listLit (elts : List AllElt)
  | tupleLit (elts : List AllElt)
  | otherExpr
deriving DecidableEq

/-- An assignment target: an `ast.Name` (with its identifier) or any other
target shape. -/
inductive AssignTarget where
  | nameTarget (id : String)
  | otherTarget
deriving DecidableEq

/-- One `ast.alias` of an import statement: `name [as asname]`. -/
structure ImportAlias where
  name : String
  asname : Option String
deriving DecidableEq

/-- A top-level `ast.FunctionDef`, `ast.AsyncFunctionDef` or `ast.ClassDef`.
`firstStmtStr` is `some s` exactly when the definition's own first body
statement is a standalone string literal `s` (what `ast.get_docstring`
returns, before cleaning). -/
structure PyDef where
  name : String
  lineno : Nat
  firstStmtStr : Option String
deriving DecidableEq

/-- A module-body statement, restricted to the shapes the tool inspects. -/
inductive PyStmt where
  | defStmt (d : PyDef)
  | assign (targets : List AssignTarget) (value : PyExpr)
  | importFrom (level : Nat) (module : Option String) (names : List ImportAlias)
  | strExpr (s : String)
  | otherStmt
deriving DecidableEq

/-- A parsed module: `ast.Module` with its body statements. -/
structure PyModule where
  body : List PyStmt
deriving DecidableEq

/-- A source file as the tool reads it: its parsed tree (`parse_py`) and its
raw text lines (`get_lines`, i.e. `read_text().splitlines()`). -/
structure PyFile where
  tree : PyModule
  lines : List String
deriving DecidableEq

/-- The file system the run sees: repository-relative path to file.
`parse_py` aborting on a syntax error is outside this model (every file
present is well formed); a path absent from the list does not exist. -/
abbrev FileSys := List (String × PyFile)

/-- File lookup (`Path.read_text` + `parse_py` + `get_lines` combined). -/
def fsLookup (fs : FileSys) (p : String) : Option PyFile :=
  (fs.find? (fun e => e.1 == p)).map (·.2)

/-- Models `Path.exists` for files. -/
def fsExists (fs : FileSys) (p : String) : Bool :=
  (fsLookup fs p).isSome

/-- Models directory existence: a directory exists when some file lies
under it (an empty directory is invisible to this model). -/
def dirExists (fs : FileSys) (d : String) : Bool :=
  fs.any (fun e => pyStartsWith e.1 (d ++ "/"))

/-- A reportable contract failure (`@dataclass Violation`). -/
structure Violation where
  path : String
  lineno : Nat
  message : String
deriving DecidableEq

/-!
The embedded tool, in source order.
-/

/-- `ESCAPE_TOKENS` from the source. -/
def ESCAPE_TOKENS : List String :=
  ["noqa: DOC", "docstring-contract: ignore"]

/-- `CORE_MODULES` from the source (repo-relative paths). -/
def CORE_MODULES : List String :=
  [ "src/diffusion_core/config/load.py"
  , "src/diffusion_core/runs/layout.py"
  , "src/diffusion_core/executor.py"
  , "src/diffusion_core/logging.py"
  , "src/diffusion_core/eval/metrics.py"
  , "src/diffusion_core/eval/metrics/__init__.py"
  , "src/diffusion_core/checkpointing.py"
  , "src/diffusion_core/determinism.py" ]

/-- Truthiness of `ast.get_docstring(node)`: the node's first statement must
be a standalone string literal and `bool(inspect.cleandoc(s))` must be true.
`cleandoc` only removes whitespace and removes nothing else, so its result
is non-empty exactly when `s` has a non-whitespace character. -/
def docTruthy : Option String → Bool
  | none => false
  | some s => s.data.any (fun c => !c.isWhitespace)

/-- The module's docstring source text, when its first statement is a
standalone string literal (`ast.get_docstring(mod)` before cleaning). -/
def moduleFirstStr (m : PyModule) : Option String :=
  match m.body.head? with
  | some (PyStmt.strExpr s) => some s
  | _ => none

/-- `module_docstring_ok`: `bool(ast.get_docstring(mod))`. -/
def module_docstring_ok (m : PyModule) : Bool :=
  docTruthy (moduleFirstStr m)

/-- The loop body of `has_escape_with_reason`: for the first token of the
tuple found in the (lowered) line, require stripped non-empty text after it;
the function returns there, later tokens are not consulted. -/
def escapeLoop (def_line : String) : List String → Bool
  | [] => false
  | tok :: rest =>
    match pyFind (pyLower def_line) (pyLower tok) with
    | none => escapeLoop def_line rest
    | some idx => !(pyStrip (def_line.data.drop (idx + tok.data.length))).isEmpty

/-- `has_escape_with_reason` from the source. -/
def has_escape_with_reason (def_line : String) : Bool :=
  escapeLoop def_line ESCAPE_TOKENS

/-- `is_public_name` from the source. -/
def is_public_name (name : String) : Bool :=
  !(pyStartsWith name "_")

/-- `top_level_defs` from the source. -/
def top_level_defs (m : PyModule) : List PyDef :=
  m.body.filterMap (fun s =>
    match s with
    | PyStmt.defStmt d => some d
    | _ => none)

/-- Element loop of `extract_all_list`: every element must be a string
constant, else `SystemExit` (modelled as `Except.error`). -/
def allItems : List AllElt → Except String (List String)
  | [] => Except.ok []
  | AllElt.strConst s :: rest => (allItems rest).map (s :: ·)
  | AllElt.nonStr :: _ =>
    Except.error
      "__all__ must be a literal list/tuple of strings (no computed expressions)."

/-- `extract_all_list` from the source: the first `Assign` with an
`ast.Name` target `__all__` decides; a non-list/tuple right-hand side or a
non-string element raises `SystemExit` (`Except.error`); no such assignment
yields `none`. -/
def extract_all_list (m : PyModule) : Except String (Option (List String)) :=
  let rec go : List PyStmt → Except String (Option (List String))
    | [] => Except.ok none
    | PyStmt.assign tgts val :: rest =>
      if tgts.any (fun t => t == AssignTarget.nameTarget "__all__") then
        match val with
        | PyExpr.listLit elts => (allItems elts).map some
        | PyExpr.tupleLit elts => (allItems elts).map some
        | PyExpr.otherExpr =>
          Except.error "__all__ must be a literal list/tuple of strings."
      else go rest
    | _ :: rest => go rest
  go m.body

/-- One iteration of `import_map_from_init`'s statement loop: for an
`ast.ImportFrom` with `level >= 1`, each alias assigns
`mapping[exported] = (base, original)`; the dict is modelled as an
association list with the most recent insertion in front. -/
def import_map_step (mapping : List (String × String × String)) (node : PyStmt) :
    List (String × String × String) :=
  match node with
  | PyStmt.importFrom level module names =>
    if 1 ≤ level then
      names.foldl
        (fun mapping a => (a.asname.getD a.name, module.getD "", a.name) :: mapping)
        mapping
    else mapping
  | _ => mapping

/-- `import_map_from_init` from the source: a Python dict built by
iterating the module body, later insertions overwriting earlier ones. -/
def import_map_from_init (m : PyModule) : List (String × String × String) :=
  m.body.foldl import_map_step []

/-- Dict lookup on the association-list model of the import dict (front
entry = most recent insertion, as Python's dict overwriting yields). -/
def mapLookup (mp : List (String × String × String)) (k : String) :
    Option (String × String) :=
  (mp.find? (fun e => e.1 == k)).map (·.2)

/-- `str(Path(*dotted.split(".")))` for a truthy `dotted`, and `str(Path())
= "."` otherwise; `pathlib` drops empty parts. -/
def dottedToRel (dotted : String) : String :=
  if dotted.data = [] then "."
  else
    let parts := (splitCharAux '.' dotted.data []).filter (· ≠ [])
    if parts = [] then "." else ⟨joinWithSlash parts⟩

/-- `pkg / rel` as `pathlib` computes it: a `"."` component is dropped. -/
def joinRel (pkg rel : String) : String :=
  if rel = "." then pkg else pkg ++ "/" ++ rel

/-- `resolve_module_file` from the source: try `<pkg>/<rel>.py`, then
`<pkg>/<rel>/__init__.py`. `str(rel)` is never empty (the empty dotted path
prints as `"."`), so `cand1` is always attempted; for the empty dotted path
it is the (normally nonexistent) file `<pkg>/..py`. -/
def resolve_module_file (fs : FileSys) (pkg : String) (dotted : String) :
    Option String :=
  let rel := dottedToRel dotted
  let cand1 : Option String :=
    if rel.data ≠ [] then some (pkg ++ "/" ++ rel ++ ".py") else none
  let cand2 : String := joinRel pkg rel ++ "/__init__.py"
  match cand1 with
  | some c1 =>
    if fsExists fs c1 then some c1
    else if fsExists fs cand2 then some cand2
    else none
  | none => if fsExists fs cand2 then some cand2 else none

/-- `find_top_level_symbol` from the source: first top-level definition with
the exact name. -/
def find_top_level_symbol (m : PyModule) (name : String) : Option PyDef :=
  (top_level_defs m).find? (fun d => d.name == name)

/-- Wraps a name in single quotes, as the f-string messages do. -/
def squote (name : String) : String :=
  "'" ++ name ++ "'"

/-- `lines[node.lineno - 1] if 1 <= node.lineno <= len(lines) else ""`. -/
def defLineAt (lines : List String) (lineno : Nat) : String :=
  if 1 ≤ lineno ∧ lineno ≤ lines.length then lines.getD (lineno - 1) "" else ""

/-- `check_api_file` from the source: header docstring, then each public
top-level definition needs a docstring unless escaped with a reason.
Reading a missing file raises (`Except.error`). -/
def check_api_file (fs : FileSys) (path : String) : Except String (List Violation) :=
  match fsLookup fs path with
  | none => Except.error ("cannot read " ++ path)
  | some f =>
    let headerViols : List Violation :=
      if module_docstring_ok f.tree then []
      else [⟨path, 1, "Missing module docstring (required for public API file)."⟩]
    let defViols : List Violation :=
      (top_level_defs f.tree).filterMap (fun node =>
        if !(is_public_name node.name) then none
        else if docTruthy node.firstStmtStr then none
        else if has_escape_with_reason (defLineAt f.lines node.lineno) then none
        else
          some ⟨path, node.lineno,
            "Public symbol " ++ squote node.name ++ " is missing a docstring."⟩)
    Except.ok (headerViols ++ defViols)

/-- `check_core_module` from the source: header docstring only. -/
def check_core_module (fs : FileSys) (path : String) : Except String (List Violation) :=
  match fsLookup fs path with
  | none => Except.error ("cannot read " ++ path)
  | some f =>
    Except.ok
      (if module_docstring_ok f.tree then []
       else
         [⟨path, 1,
           "Missing module header docstring (required for core infrastructure module)."⟩])

/-- The body of the `for name in exported` loop of `check_init_exports`:
the violations one exported name contributes. -/
def check_export_name (fs : FileSys) (init_path pkg : String)
    (imports : List (String × String × String)) (name : String) :
    Except String (List Violation) :=
  if pyStartsWith name "_" then
    Except.ok [⟨init_path, 1, "__all__ contains private name " ++ squote name ++ "."⟩]
  else
    match mapLookup imports name with
    | none =>
      Except.ok
        [⟨init_path, 1,
          "__all__ exports " ++ squote name ++
            " but it is not imported via a simple 'from .x import \x7bname\x7d' mapping."⟩]
    | some (mod_dotted, original) =>
      match resolve_module_file fs pkg mod_dotted with
      | none =>
        Except.ok
          [⟨init_path, 1,
            "Cannot resolve module '." ++ mod_dotted ++ "' for exported " ++
              squote name ++ "."⟩]
      | some mod_file =>
        match fsLookup fs mod_file with
        | none => Except.error ("cannot read " ++ mod_file)
        | some mf =>
          match find_top_level_symbol mf.tree original with
          | none =>
            Except.ok
              [⟨mod_file, 1,
                "Exported " ++ squote name ++ " maps to " ++ squote original ++
                  " but symbol not found."⟩]
          | some sym =>
            if docTruthy sym.firstStmtStr then Except.ok []
            else if has_escape_with_reason (defLineAt mf.lines sym.lineno) then
              Except.ok []
            else
              Except.ok
                [⟨mod_file, sym.lineno,
                  "Exported public symbol " ++ squote name ++
                    " is missing a docstring."⟩]

/-- The `for name in exported` loop: violations of all exports, in export
order (an `Except.error` from any iteration aborts the run). -/
def check_exports_loop (fs : FileSys) (init_path pkg : String)
    (imports : List (String × String × String)) :
    List String → Except String (List Violation)
  | [] => Except.ok []
  | name :: rest =>
    match check_export_name fs init_path pkg imports name with
    | Except.error e => Except.error e
    | Except.ok v =>
      match check_exports_loop fs init_path pkg imports rest with
      | Except.error e => Except.error e
      | Except.ok vs => Except.ok (v ++ vs)

/-- `check_init_exports` from the source: header docstring, then the
export list (its absence is one violation that short-circuits the
per-export checks; a non-literal one is fatal), then the per-export loop. -/
def check_init_exports (fs : FileSys) (init_path pkg : String) :
    Except String (List Violation) :=
  match fsLookup fs init_path with
  | none => Except.error ("cannot read " ++ init_path)
  | some f =>
    let headerViols : List Violation :=
      if module_docstring_ok f.tree then []
      else
        [⟨init_path, 1, "Missing module docstring in package __init__.py (public file)."⟩]
    match extract_all_list f.tree with
    | Except.error e => Except.error e
    | Except.ok none =>
      Except.ok
        (headerViols ++ [⟨init_path, 1, "__all__ is missing; public files must be explicit."⟩])
    | Except.ok (some exported) =>
      match check_exports_loop fs init_path pkg (import_map_from_init f.tree) exported with
      | Except.error e => Except.error e
      | Except.ok vs => Except.ok (headerViols ++ vs)

/-- `substitute_pkg` from the source. -/
def substitute_pkg (paths : List String) (pkg_name : String) : List String :=
  paths.map (fun p => pyReplace p "src/diffusion_core/" ("src/" ++ pkg_name ++ "/"))

/-- The dispatch of `main`'s per-target loop: entry file, API-directory
file, core module, or nothing. -/
def check_target (fs : FileSys) (pkg_name : String) (t : String) :
    Except String (List Violation) :=
  let pkg := "src/" ++ pkg_name
  let init_path := pkg ++ "/__init__.py"
  let api_dir := pkg ++ "/api"
  if t = init_path then check_init_exports fs init_path pkg
  else if dirExists fs api_dir && pyStartsWith t (api_dir ++ "/") then
    check_api_file fs t
  else if (substitute_pkg CORE_MODULES pkg_name).contains t then
    check_core_module fs t
  else Except.ok []

/-- `main`'s accumulation loop: `violations.extend(...)` over the targets,
in target order. -/
def run_targets (fs : FileSys) (pkg_name : String) :
    List String → Except String (List Violation)
  | [] => Except.ok []
  | t :: ts =>
    match check_target fs pkg_name t with
    | Except.error e => Except.error e
    | Except.ok v =>
      match run_targets fs pkg_name ts with
      | Except.error e => Except.error e
      | Except.ok vs => Except.ok (v ++ vs)

/-- Character-list comparison by code points (Python string `<`). -/
def charListLt : List Char → List Char → Bool
  | _, [] => false
  | [], _ :: _ => true
  | a :: as, b :: bs =>
    if a < b then true else if b < a then false else charListLt as bs

/-- Path comparison as `pathlib` sorts paths: lexicographically on the
tuple of parts, each part compared as a string. -/
def partsLt : List (List Char) → List (List Char) → Bool
  | _, [] => false
  | [], _ :: _ => true
  | a :: as, b :: bs =>
    if charListLt a b then true
    else if charListLt b a then false
    else partsLt as bs

/-- `pathLt p q`: `Path(p) < Path(q)`. -/
def pathLt (p q : String) : Bool :=
  partsLt (splitCharAux '/' p.data []) (splitCharAux '/' q.data [])

/-- Insertion into a `pathLt`-sorted list. -/
def insertSorted (p : String) : List String → List String
  | [] => [p]
  | q :: qs => if pathLt p q then p :: q :: qs else q :: insertSorted p qs

/-- `sorted(...)` over paths. -/
def sortPaths (l : List String) : List String :=
  l.foldr insertSorted []

/-- Set deduplication (keeps first occurrences; the result is sorted
afterwards, so which duplicate survives is immaterial). -/
def dedupAux (seen : List String) : List String → List String
  | [] => []
  | p :: ps =>
    if seen.contains p then dedupAux seen ps
    else p :: dedupAux (p :: seen) ps

/-- `sorted({p.resolve() for p in candidates})`: deduplicate, then sort. -/
def sortedSet (l : List String) : List String :=
  sortPaths (dedupAux [] l)

/-- The `--all` candidate enumeration of `main`: files under the API
directory (when it exists), the entry file, and the existing core paths;
then deduplicated and sorted. -/
def all_targets (fs : FileSys) (pkg_name : String) : List String :=
  let pkg := "src/" ++ pkg_name
  let api_dir := pkg ++ "/api"
  let init_path := pkg ++ "/__init__.py"
  let apiFiles :=
    if dirExists fs api_dir then
      (fs.map (·.1)).filter (fun p => pyStartsWith p (api_dir ++ "/") && pyEndsWith p ".py")
    else []
  let cores := (substitute_pkg CORE_MODULES pkg_name).filter (fun p => fsExists fs p)
  sortedSet (apiFiles ++ [init_path] ++ cores)

/-- `main` with `--all`: run every qualifying target; the report lists the
collected violations in accumulation order. -/
def main_all (fs : FileSys) (pkg_name : String) : Except String (List Violation) :=
  run_targets fs pkg_name (all_targets fs pkg_name)

/-!
Spec-side definitions: statements of spec sentences, written from the
spec's words, for comparison with the embedded code.
-/

/-- Spec wording of the escape rule (4.4): the line contains one of the
recognized tokens (case-insensitively) and non-whitespace text follows that
token on the same line. -/
def tokenReasonNonempty (line tok : String) : Bool :=
  match pyFind (pyLower line) (pyLower tok) with
  | none => false
  | some idx => !(pyStrip (line.data.drop (idx + tok.data.length))).isEmpty

/-- Spec wording: suppression holds when ANY recognized token is present
with non-whitespace text after it. -/
def escape_suppressed_per_spec (line : String) : Bool :=
  ESCAPE_TOKENS.any (fun tok => tokenReasonNonempty line tok)

/-- Spec wording (4.1): the file's first statement is a standalone string
literal. -/
def first_stmt_is_string_lit (m : PyModule) : Bool :=
  match m.body.head? with
  | some (PyStmt.strExpr _) => true
  | _ => false

/-- The bindings `(exported, base, original)` one statement contributes to
the import map, in alias order. -/
def stmt_bindings (node : PyStmt) : List (String × String × String) :=
  match node with
  | PyStmt.importFrom level module names =>
    if 1 ≤ level then
      names.map (fun a => (a.asname.getD a.name, module.getD "", a.name))
    else []
  | _ => []

/-- The textual sequence of relative-import bindings of a module body, in
source order (statement by statement, alias by alias). -/
def relImportBindings (m : PyModule) : List (String × String × String) :=
  (m.body.map stmt_bindings).flatten

/-- Report order `(file path, line number)` from the spec (§3, §4.5). -/
def violLe (v w : Violation) : Bool :=
  charListLt v.path.data w.path.data ||
    (v.path == w.path && v.lineno ≤ w.lineno)

/-- Whether a violation list is sorted by `(file path, line number)`. -/
def sortedByFileLine : List Violation → Bool
  | [] => true
  | [_] => true
  | v :: w :: rest => violLe v w && sortedByFileLine (w :: rest)

/-!
Concrete inputs for counterexamples and witnesses.
-/

/-- C1 counterexample file system: the entry file re-exports `X` from
`zmod.py`, where `X` lacks a docstring (violation at `zmod.py:5`), and an
API file lacks its header docstring (violation at `api/a.py:1`). -/
def c1fs : FileSys :=
  [ ("src/diffusion_core/__init__.py",
      ⟨⟨[ PyStmt.strExpr "Entry docstring."
        , PyStmt.assign [AssignTarget.nameTarget "__all__"] (PyExpr.listLit [AllElt.strConst "X"])
        , PyStmt.importFrom 1 (some "zmod") [⟨"X", none⟩] ]⟩,
       ["", "", ""]⟩)
  , ("src/diffusion_core/zmod.py",
      ⟨⟨[PyStmt.defStmt ⟨"X", 5, none⟩]⟩,
       ["", "", "", "", "def X():"]⟩)
  , ("src/diffusion_core/api/a.py",
      ⟨⟨[]⟩, []⟩) ]

/-- C2 counterexample line: the second recognized token is followed by a
justification, but the first recognized token (later on the line) is
followed by nothing. -/
def c2Line : String := "x = 1  # docstring-contract: ignore see noqa: DOC"

/-- C3 witness entry file: header docstring present, no `__all__`. -/
def f3 : PyFile := ⟨⟨[PyStmt.strExpr "Package."]⟩, ["\"Package.\""]⟩

/-- C3 witness file system. -/
def fs3 : FileSys := [("src/p/__init__.py", f3)]

/-- C4 counterexample entry module: `__all__ = ["X"]` with `X` bound by the
multi-level relative import `from ..m import X` (level 2). -/
def c4entry : PyModule :=
  ⟨[ PyStmt.strExpr "Pkg."
   , PyStmt.assign [AssignTarget.nameTarget "__all__"] (PyExpr.listLit [AllElt.strConst "X"])
   , PyStmt.importFrom 2 (some "m") [⟨"X", none⟩] ]⟩

/-- C4 counterexample file system: `src/p/m.py` defines a documented `X`. -/
def c4fs : FileSys :=
  [ ("src/p/__init__.py", ⟨c4entry, ["", "", ""]⟩)
  , ("src/p/m.py", ⟨⟨[PyStmt.defStmt ⟨"X", 1, some "Doc."⟩]⟩, ["def X():"]⟩) ]

/-- C4 witness entry module: `path` is bound only by an absolute import
(level 0), which the import map ignores. -/
def c4wMod : PyModule :=
  ⟨[PyStmt.importFrom 0 (some "os") [⟨"path", none⟩]]⟩

/-- C5 counterexample module: its first statement is the empty string
literal. -/
def c5mod : PyModule := ⟨[PyStmt.strExpr ""]⟩

/-- C6 witness origin file: `RealFoo` defined without a docstring at
line 3, no escape token on its definition line. -/
def f6 : PyFile :=
  ⟨⟨[PyStmt.defStmt ⟨"RealFoo", 3, none⟩]⟩, ["", "", "def RealFoo():"]⟩

/-- C6 witness file system. -/
def fs6 : FileSys := [("src/p/bar.py", f6)]

/-- C6 witness import map: `Foo` renames `RealFoo` from `.bar`
(`from .bar import RealFoo as Foo`). -/
def imports6 : List (String × String × String) := [("Foo", "bar", "RealFoo")]

/-- C7 witness entry file: `__all__` assigned a non-literal expression. -/
def f7 : PyFile :=
  ⟨⟨[ PyStmt.strExpr "Pkg."
    , PyStmt.assign [AssignTarget.nameTarget "__all__"] PyExpr.otherExpr ]⟩, ["", ""]⟩

/-- C7 witness file system. -/
def fs7 : FileSys := [("src/q/__init__.py", f7)]

/-- C8 witness file system: a single entry file missing `__all__`. -/
def fs8 : FileSys := [("src/q/__init__.py", ⟨⟨[PyStmt.strExpr "D."]⟩, []⟩)]

/-- C10 witness entry file: the package entry defines a documented `Thing`
at line 2 and is itself the origin of a `from . import Thing` binding. -/
def f10 : PyFile :=
  ⟨⟨[PyStmt.defStmt ⟨"Thing", 2, some "Doc."⟩]⟩, ["", "def Thing():"]⟩

/-- C10 witness file system. -/
def fs10 : FileSys := [("src/p/__init__.py", f10)]

/-- C10 witness import map: `Thing` bound by `from . import Thing` (empty
dotted module path). -/
def imports10 : List (String × String × String) := [("Thing", "", "Thing")]

/-!
Helper lemmas.
-/

/-- String concatenation is associative (needed to normalise path
concatenations such as `pkg ++ "/" ++ rel ++ ".py"`). -/
theorem str_append_assoc (a b c : String) : (a ++ b) ++ c = a ++ (b ++ c) := by
  cases a with
  | mk da =>
    cases b with
    | mk db =>
      cases c with
      | mk dc =>
        show String.mk ((da ++ db) ++ dc) = String.mk (da ++ (db ++ dc))
        rw [List.append_assoc]

/-- The escape loop returns the verdict of the first token of the tuple
that occurs in the line, and `false` when none occurs. -/
theorem escapeLoop_eq_find (line : String) :
    ∀ toks : List String,
      escapeLoop line toks =
        (toks.find? (fun tok => (pyFind (pyLower line) (pyLower tok)).isSome)).elim
          false (fun tok => tokenReasonNonempty line tok)
  | [] => rfl
  | tok :: rest => by
    cases h : pyFind (pyLower line) (pyLower tok) with
    | none =>
      have ih := escapeLoop_eq_find line rest
      simp [escapeLoop, h, List.find?, tokenReasonNonempty, ih]
    | some idx =>
      simp [escapeLoop, h, List.find?, tokenReasonNonempty]

/-!
Claim theorems.
-/

/-- C2 counterexample: on `c2Line` the token `docstring-contract: ignore`
is followed by non-whitespace text, so the claim requires suppression; the
code checks `noqa: DOC` first, finds it (at the end, followed by nothing)
and refuses to suppress. -/
theorem c2_escape_first_token_shadows :
    escape_suppressed_per_spec c2Line = true ∧
      has_escape_with_reason c2Line = false :=
  ⟨rfl, rfl⟩

/-- C2 amended: a definition line suppresses its violation iff the first
token in the fixed tuple order (`noqa: DOC` before
`docstring-contract: ignore`) that occurs in the line (case-insensitively)
is followed by non-whitespace text; tokens listed later are consulted only
when every earlier-listed token is absent from the line. -/
theorem c2_escape_first_listed_token_decides (line : String) :
    has_escape_with_reason line =
      (ESCAPE_TOKENS.find? (fun tok => (pyFind (pyLower line) (pyLower tok)).isSome)).elim
        false (fun tok => tokenReasonNonempty line tok) :=
  escapeLoop_eq_find line ESCAPE_TOKENS

/-- C3: when the entry file declares no `__all__`, the checker emits the
single `__all__ is missing` violation at line 1 of the entry file and
short-circuits: no per-export violation is produced (the only other
possible violation is the independent missing-header-docstring one). -/
theorem c3_missing_all_single_violation (fs : FileSys) (init_path pkg : String)
    (f : PyFile) (hf : fsLookup fs init_path = some f)
    (hall : extract_all_list f.tree = Except.ok none) :
    check_init_exports fs init_path pkg =
      Except.ok
        ((if module_docstring_ok f.tree then ([] : List Violation)
          else [⟨init_path, 1, "Missing module docstring in package __init__.py (public file)."⟩]) ++
          [⟨init_path, 1, "__all__ is missing; public files must be explicit."⟩]) := by
  simp [check_init_exports, hf, hall]

/-- C3 witness: a documented entry file without `__all__` yields exactly
the one violation. -/
theorem c3_missing_all_witness :
    check_init_exports fs3 "src/p/__init__.py" "src/p" =
      Except.ok [⟨"src/p/__init__.py", 1, "__all__ is missing; public files must be explicit."⟩] :=
  c3_missing_all_single_violation fs3 "src/p/__init__.py" "src/p" f3 rfl rfl

/-- C5 counterexample: a module whose first statement is the empty string
literal is a standalone string literal, yet the code treats the header
docstring as missing (`bool(ast.get_docstring(...))` is false on it). -/
theorem c5_empty_docstring_counts_absent :
    first_stmt_is_string_lit c5mod = true ∧ module_docstring_ok c5mod = false :=
  ⟨rfl, rfl⟩

/-- C5 amended: header-doc presence is true iff the file's first statement
is a standalone string literal containing at least one non-whitespace
character, and a definition's docstring presence likewise (an empty or
whitespace-only string literal counts as absent, since the code tests the
truthiness of the cleaned docstring). -/
theorem c5_doc_presence_iff_nonblank_string (m : PyModule) (o : Option String) :
    (module_docstring_ok m = true ↔
      ∃ s, m.body.head? = some (PyStmt.strExpr s) ∧
        s.data.any (fun c => !c.isWhitespace) = true) ∧
    (docTruthy o = true ↔
      ∃ s, o = some s ∧ s.data.any (fun c => !c.isWhitespace) = true) := by
  constructor
  · cases hb : m.body with
    | nil => simp [module_docstring_ok, moduleFirstStr, hb, docTruthy]
    | cons s rest =>
      cases s <;> simp [module_docstring_ok, moduleFirstStr, hb, docTruthy]
  · cases o <;> simp [docTruthy]

/-- C6: for an export whose binding renames the symbol (`original ≠ name`),
the docstring lookup runs against `original` among the origin file's
top-level definitions — the hypotheses constrain only
`find_top_level_symbol mf.tree original`, never the alias — and the
missing-docstring violation is reported at the origin file and the origin
definition's line. -/
theorem c6_renamed_export_uses_original_name (fs : FileSys)
    (init_path pkg : String) (imports : List (String × String × String))
    (name mod_dotted original mod_file : String) (mf : PyFile) (sym : PyDef)
    (_hren : original ≠ name)
    (hpub : pyStartsWith name "_" = false)
    (hbind : mapLookup imports name = some (mod_dotted, original))
    (hres : resolve_module_file fs pkg mod_dotted = some mod_file)
    (hread : fsLookup fs mod_file = some mf)
    (hsym : find_top_level_symbol mf.tree original = some sym)
    (hnodoc : docTruthy sym.firstStmtStr = false)
    (hnoesc : has_escape_with_reason (defLineAt mf.lines sym.lineno) = false) :
    check_export_name fs init_path pkg imports name =
      Except.ok
        [⟨mod_file, sym.lineno,
          "Exported public symbol " ++ squote name ++ " is missing a docstring."⟩] := by
  simp [check_export_name, hpub, hbind, hres, hread, hsym, hnodoc, hnoesc]

/-- C6 witness: `from .bar import RealFoo as Foo` with an undocumented
`RealFoo` at `bar.py:3` reports at `bar.py:3`. -/
theorem c6_renamed_export_witness :
    check_export_name fs6 "src/p/__init__.py" "src/p" imports6 "Foo" =
      Except.ok
        [⟨"src/p/bar.py", 3, "Exported public symbol 'Foo' is missing a docstring."⟩] :=
  c6_renamed_export_uses_original_name fs6 "src/p/__init__.py" "src/p" imports6
    "Foo" "bar" "RealFoo" "src/p/bar.py" f6 ⟨"RealFoo", 3, none⟩
    (by decide) rfl rfl rfl rfl rfl rfl rfl

/-- C7: a non-literal `__all__` right-hand side in the entry file makes
`extract_all_list` raise `SystemExit` (`Except.error`): `check_init_exports`
propagates the fatal error without recording a violation for it, and any
run whose target list contains the entry file produces no violation list
at all. -/
theorem c7_nonliteral_all_aborts (fs : FileSys) (pkg_name : String)
    (ts : List String) (f : PyFile) (e : String)
    (hf : fsLookup fs (("src/" ++ pkg_name) ++ "/__init__.py") = some f)
    (he : extract_all_list f.tree = Except.error e)
    (hmem : (("src/" ++ pkg_name) ++ "/__init__.py") ∈ ts) :
    check_init_exports fs (("src/" ++ pkg_name) ++ "/__init__.py") ("src/" ++ pkg_name) =
      Except.error e ∧
    ∀ vs : List Violation, run_targets fs pkg_name ts ≠ Except.ok vs := by
  have hinit :
      check_init_exports fs (("src/" ++ pkg_name) ++ "/__init__.py") ("src/" ++ pkg_name) =
        Except.error e := by
    simp [check_init_exports, hf, he]
  refine ⟨hinit, ?_⟩
  induction ts with
  | nil => cases hmem
  | cons t rest ih =>
    intro vs hrun
    rcases List.mem_cons.mp hmem with heq | hmem'
    · rw [run_targets, ← heq] at hrun
      simp [check_target, hinit] at hrun
    · rw [run_targets] at hrun
      cases hct : check_target fs pkg_name t with
      | error e' => rw [hct] at hrun; exact Except.noConfusion hrun
      | ok v =>
        rw [hct] at hrun
        cases hr : run_targets fs pkg_name rest with
        | error e' => rw [hr] at hrun; exact Except.noConfusion hrun
        | ok vs' => exact ih hmem' vs' hr

/-- C7 witness: `__all__ = <non-literal>` aborts the run on a concrete
file system. -/
theorem c7_nonliteral_all_witness :
    check_init_exports fs7 "src/q/__init__.py" "src/q" =
      Except.error "__all__ must be a literal list/tuple of strings." ∧
    ∀ vs : List Violation,
      run_targets fs7 "q" ["src/q/__init__.py"] ≠ Except.ok vs :=
  c7_nonliteral_all_aborts fs7 "q" ["src/q/__init__.py"] f7
    "__all__ must be a literal list/tuple of strings." rfl rfl (by simp)

/-- C10: an import binding `from . import X` has the empty dotted module
path; `str(Path())` is `"."`, so the first candidate is the (absent) file
`<pkg>/..py` and resolution falls through to `<pkg>/__init__.py`, the
package's own entry file — and the export is then traced against the entry
file's own top-level definitions instead of yielding a
cannot-resolve-module violation. -/
theorem c10_empty_dotted_resolves_to_init (fs : FileSys)
    (init_path pkg : String) (imports : List (String × String × String))
    (name orig : String) (mf : PyFile) (sym : PyDef)
    (hdot : fsLookup fs (pkg ++ "/..py") = none)
    (hinit : fsLookup fs (pkg ++ "/__init__.py") = some mf)
    (hbind : mapLookup imports name = some ("", orig))
    (hpub : pyStartsWith name "_" = false)
    (hsym : find_top_level_symbol mf.tree orig = some sym)
    (hdoc : docTruthy sym.firstStmtStr = true) :
    resolve_module_file fs pkg "" = some (pkg ++ "/__init__.py") ∧
    check_export_name fs init_path pkg imports name = Except.ok [] := by
  have hdr : dottedToRel "" = "." := rfl
  have key : pkg ++ "/" ++ "." ++ ".py" = pkg ++ "/..py" := by
    rw [str_append_assoc, str_append_assoc]
    rfl
  have hres : resolve_module_file fs pkg "" = some (pkg ++ "/__init__.py") := by
    simp [resolve_module_file, hdr, joinRel, fsExists, key, hdot, hinit]
  refine ⟨hres, ?_⟩
  simp [check_export_name, hpub, hbind, hres, hinit, hsym, hdoc]

/-- C10 witness: `from . import Thing` resolves against the entry file and
finds the documented `Thing` there. -/
theorem c10_empty_dotted_witness :
    resolve_module_file fs10 "src/p" "" = some ("src/p" ++ "/__init__.py") ∧
    check_export_name fs10 "src/p/__init__.py" "src/p" imports10 "Thing" =
      Except.ok [] :=
  c10_empty_dotted_resolves_to_init fs10 "src/p/__init__.py" "src/p" imports10
    "Thing" "Thing" f10 ⟨"Thing", 2, some "Doc."⟩ rfl rfl rfl rfl rfl rfl

/-- Folding cons-insertions prepends the reversed block. -/
theorem foldl_cons_eq_reverse_append (f : ImportAlias → String × String × String) :
    ∀ (names : List ImportAlias) (acc : List (String × String × String)),
      names.foldl (fun mp a => f a :: mp) acc = (names.map f).reverse ++ acc
  | [], acc => by simp
  | a :: rest, acc => by
    simp [List.foldl_cons, foldl_cons_eq_reverse_append f rest (f a :: acc)]

/-- One dict-building step prepends the statement's reversed bindings. -/
theorem import_map_step_eq (mapping : List (String × String × String))
    (node : PyStmt) :
    import_map_step mapping node = (stmt_bindings node).reverse ++ mapping := by
  cases node with
  | importFrom level module names =>
    by_cases h : 1 ≤ level
    · simp [import_map_step, stmt_bindings, h,
        foldl_cons_eq_reverse_append (fun a => (a.asname.getD a.name, module.getD "", a.name))]
    · simp [import_map_step, stmt_bindings, h]
  | defStmt d => rfl
  | assign tgts val => rfl
  | strExpr s => rfl
  | otherStmt => rfl

/-- The built dict is the reverse of the textual binding sequence. -/
theorem import_map_foldl_eq :
    ∀ (body : List PyStmt) (acc : List (String × String × String)),
      body.foldl import_map_step acc = ((body.map stmt_bindings).flatten).reverse ++ acc
  | [], acc => by simp
  | node :: rest, acc => by
    rw [List.foldl_cons, import_map_foldl_eq rest (import_map_step acc node),
      import_map_step_eq]
    simp [List.append_assoc]

/-- `import_map_from_init` is the reversed textual binding sequence. -/
theorem import_map_eq_reverse (m : PyModule) :
    import_map_from_init m = (relImportBindings m).reverse := by
  rw [import_map_from_init, import_map_foldl_eq m.body [], relImportBindings]
  simp

/-- `find?` on a reversed list returns the last match of the list. -/
theorem find?_reverse_eq_getLast? {α : Type} (p : α → Bool) (l : List α) :
    l.reverse.find? p = (l.filter p).getLast? := by
  induction l using List.reverseRecOn with
  | nil => rfl
  | append_singleton l a ih =>
    rw [List.reverse_append, List.filter_append]
    cases hpa : p a with
    | true =>
      rw [show List.reverse [a] ++ l.reverse = a :: l.reverse from rfl,
        List.find?_cons_of_pos _ hpa,
        show List.filter p [a] = [a] by simp [hpa],
        List.getLast?_concat]
    | false =>
      rw [show List.reverse [a] ++ l.reverse = a :: l.reverse from rfl,
        List.find?_cons_of_neg _ (by simp [hpa]), ih,
        show List.filter p [a] = [] by simp [hpa],
        List.append_nil]

/-- C9: when several relative-import statements bind the same local name,
the import map retains exactly the textually last binding in module body
order (Python dict insertion overwrites), so every exported name has at
most one `(module path, original name)` origin. -/
theorem c9_duplicate_binding_last_wins (m : PyModule) (name : String) :
    mapLookup (import_map_from_init m) name =
      (((relImportBindings m).filter (fun b => b.1 == name)).getLast?).map (·.2) := by
  rw [mapLookup, import_map_eq_reverse, find?_reverse_eq_getLast?]

/-- C4 counterexample: the entry exports `X`, bound only by the multi-level
relative import `from ..m import X` (level 2). The claim requires a
violation for `X`; the checker instead tracks the binding, resolves `m`
against the package root, finds the documented `X` there, and reports
nothing at all. -/
theorem c4_multilevel_import_resolved_not_flagged :
    extract_all_list c4entry = Except.ok (some ["X"]) ∧
    check_init_exports c4fs "src/p/__init__.py" "src/p" = Except.ok [] :=
  ⟨rfl, rfl⟩

/-- C4 amended: an exported public name is given the
`not imported via a simple mapping` violation exactly when NO relative
`from`-import of any level binds it (absolute imports, wildcard imports of
other names, computed assignments); a name bound by a relative import of
any level — including multi-level ones — is tracked in the import map and
resolved instead of flagged. -/
theorem c4_unbound_export_flagged (fs : FileSys) (init_path pkg : String)
    (m : PyModule) (name : String)
    (hpub : pyStartsWith name "_" = false)
    (hnb : (relImportBindings m).all (fun b => b.1 != name) = true) :
    mapLookup (import_map_from_init m) name = none ∧
    check_export_name fs init_path pkg (import_map_from_init m) name =
      Except.ok
        [⟨init_path, 1,
          "__all__ exports " ++ squote name ++
            " but it is not imported via a simple 'from .x import \x7bname\x7d' mapping."⟩] := by
  have hfind : (relImportBindings m).reverse.find? (fun e => e.1 == name) = none :=
    List.find?_eq_none.mpr (fun b hb => by
      have := List.all_eq_true.mp hnb b (List.mem_reverse.mp hb)
      simpa using this)
  have hnone : mapLookup (import_map_from_init m) name = none := by
    rw [mapLookup, import_map_eq_reverse, hfind]
    rfl
  exact ⟨hnone, by simp [check_export_name, hpub, hnone]⟩

/-- C4 witness: a name bound only by an absolute import (level 0) is
flagged with the not-imported violation. -/
theorem c4_unbound_export_witness :
    mapLookup (import_map_from_init c4wMod) "X" = none ∧
    check_export_name [] "src/p/__init__.py" "src/p" (import_map_from_init c4wMod) "X" =
      Except.ok
        [⟨"src/p/__init__.py", 1,
          "__all__ exports " ++ squote "X" ++
            " but it is not imported via a simple 'from .x import \x7bname\x7d' mapping."⟩] :=
  c4_unbound_export_flagged [] "src/p/__init__.py" "src/p" c4wMod "X" rfl rfl

/-- C1 counterexample: on `c1fs`, the `--all` run reports the entry file's
origin-file violation (`zmod.py:5`) before the API-file violation
(`api/a.py:1`) because violations are appended in target-processing order
and never sorted; the report is not sorted by (file path, line number). -/
theorem c1_report_not_sorted :
    main_all c1fs "diffusion_core" =
      Except.ok
        [ ⟨"src/diffusion_core/zmod.py", 5,
            "Exported public symbol 'X' is missing a docstring."⟩
        , ⟨"src/diffusion_core/api/a.py", 1,
            "Missing module docstring (required for public API file)."⟩ ] ∧
    sortedByFileLine
        [ ⟨"src/diffusion_core/zmod.py", 5,
            "Exported public symbol 'X' is missing a docstring."⟩
        , ⟨"src/diffusion_core/api/a.py", 1,
            "Missing module docstring (required for public API file)."⟩ ] = false :=
  ⟨rfl, rfl⟩

/-- C1 amended: the final report lists the collected violations in
target-processing order — the concatenation of each target's violations —
rather than sorted by (file path, line number); with `--all` the target
list itself is deduplicated and sorted by path, so that report is a
function of the tree alone, but violations that `check_init_exports`
attributes to origin files appear at the entry file's position in the
report. -/
theorem c1_report_in_processing_order (fs : FileSys) (pkg_name : String)
    (ts₁ ts₂ : List String) (vs₁ vs₂ : List Violation)
    (h₁ : run_targets fs pkg_name ts₁ = Except.ok vs₁)
    (h₂ : run_targets fs pkg_name ts₂ = Except.ok vs₂) :
    run_targets fs pkg_name (ts₁ ++ ts₂) = Except.ok (vs₁ ++ vs₂) := by
  induction ts₁ generalizing vs₁ with
  | nil =>
    rw [run_targets] at h₁
    cases h₁
    simpa using h₂
  | cons t rest ih =>
    rw [List.cons_append, run_targets]
    rw [run_targets] at h₁
    cases hct : check_target fs pkg_name t with
    | error e => rw [hct] at h₁; exact Except.noConfusion h₁
    | ok v =>
      rw [hct] at h₁
      cases hr : run_targets fs pkg_name rest with
      | error e => rw [hr] at h₁; exact Except.noConfusion h₁
      | ok vs' =>
        rw [hr] at h₁
        cases h₁
        rw [ih vs' hr]
        simp [List.append_assoc]

/-- C1 amended witness: processing the entry file then the API file
concatenates their violation lists in that order. -/
theorem c1_processing_order_witness :
    run_targets c1fs "diffusion_core"
        (["src/diffusion_core/__init__.py"] ++ ["src/diffusion_core/api/a.py"]) =
      Except.ok
        ([⟨"src/diffusion_core/zmod.py", 5,
            "Exported public symbol 'X' is missing a docstring."⟩] ++
         [⟨"src/diffusion_core/api/a.py", 1,
            "Missing module docstring (required for public API file)."⟩]) :=
  c1_report_in_processing_order c1fs "diffusion_core"
    ["src/diffusion_core/__init__.py"] ["src/diffusion_core/api/a.py"]
    [⟨"src/diffusion_core/zmod.py", 5,
      "Exported public symbol 'X' is missing a docstring."⟩]
    [⟨"src/diffusion_core/api/a.py", 1,
      "Missing module docstring (required for public API file)."⟩]
    rfl rfl

/-- Running a single target succeeds with exactly that target's
violations. -/
theorem run_targets_singleton (fs : FileSys) (pkg_name t : String)
    (vt : List Violation) :
    run_targets fs pkg_name [t] = Except.ok vt ↔
      check_target fs pkg_name t = Except.ok vt := by
  cases hct : check_target fs pkg_name t with
  | error e => simp [run_targets, hct]
  | ok v => simp [run_targets, hct]

/-- Membership in a multi-target run is membership in some target's own
check result. -/
theorem run_targets_mem (fs : FileSys) (pkg_name : String) :
    ∀ (ts : List String) (vs : List Violation),
      run_targets fs pkg_name ts = Except.ok vs →
      ∀ v : Violation,
        (v ∈ vs ↔ ∃ t, t ∈ ts ∧ ∃ vt,
          check_target fs pkg_name t = Except.ok vt ∧ v ∈ vt)
  | [], vs, h, v => by
    rw [run_targets] at h
    cases h
    simp
  | t :: ts, vs, h, v => by
    rw [run_targets] at h
    cases hct : check_target fs pkg_name t with
    | error e => rw [hct] at h; exact Except.noConfusion h
    | ok v0 =>
      rw [hct] at h
      cases hr : run_targets fs pkg_name ts with
      | error e => rw [hr] at h; exact Except.noConfusion h
      | ok vs' =>
        rw [hr] at h
        cases h
        rw [List.mem_append, run_targets_mem fs pkg_name ts vs' hr v]
        constructor
        · rintro (hv | ⟨t', ht', vt, hvt, hmem⟩)
          · exact ⟨t, List.mem_cons_self t ts, v0, hct, hv⟩
          · exact ⟨t', List.mem_cons_of_mem t ht', vt, hvt, hmem⟩
        · rintro ⟨t', ht', vt, hvt, hmem⟩
          rcases List.mem_cons.mp ht' with rfl | ht''
          · rw [hct] at hvt
            cases hvt
            exact Or.inl hmem
          · exact Or.inr ⟨t', ht'', vt, hvt, hmem⟩

/-- C8: a violation appears in the `--all` run's collected list iff it
appears in the list produced by running some qualifying target on its own:
the whole-set violation set is the union of the single-file violation
sets, and scope selection never changes the per-file checking logic. -/
theorem c8_all_scope_union (fs : FileSys) (pkg_name : String)
    (vs : List Violation) (h : main_all fs pkg_name = Except.ok vs)
    (v : Violation) :
    v ∈ vs ↔ ∃ t ∈ all_targets fs pkg_name, ∃ vt,
      run_targets fs pkg_name [t] = Except.ok vt ∧ v ∈ vt := by
  rw [run_targets_mem fs pkg_name (all_targets fs pkg_name) vs h v]
  constructor
  · rintro ⟨t, ht, vt, hvt, hmem⟩
    exact ⟨t, ht, vt, (run_targets_singleton fs pkg_name t vt).mpr hvt, hmem⟩
  · rintro ⟨t, ht, vt, hvt, hmem⟩
    exact ⟨t, ht, vt, (run_targets_singleton fs pkg_name t vt).mp hvt, hmem⟩

/-- C8 witness: on `fs8` the single collected violation is exactly the one
contributed by running the entry file alone. -/
theorem c8_all_scope_union_witness :
    (⟨"src/q/__init__.py", 1, "__all__ is missing; public files must be explicit."⟩ : Violation) ∈
        ([⟨"src/q/__init__.py", 1, "__all__ is missing; public files must be explicit."⟩] :
          List Violation) ↔
      ∃ t ∈ all_targets fs8 "q", ∃ vt, run_targets fs8 "q" [t] = Except.ok vt ∧
        (⟨"src/q/__init__.py", 1,
          "__all__ is missing; public files must be explicit."⟩ : Violation) ∈ vt :=
  c8_all_scope_union fs8 "q"
    [⟨"src/q/__init__.py", 1, "__all__ is missing; public files must be explicit."⟩] rfl
    ⟨"src/q/__init__.py", 1, "__all__ is missing; public files must be explicit."⟩

end EnforceDocstrings
